import Mathlib

/-!
Shallow embedding of the collection-and-growth core of the katamari game
(`src/gameLogic.ts` plus the collision/tick glue in
`src/composables/useGameLoop.ts`), over exact real arithmetic.

Modelling conventions:
* JavaScript numbers are idealised as `ℝ`; vector lengths and distances use
  `Real.sqrt`, matching `CANNON.Vec3.length` / `distanceTo`.
* Object identity (`===` on meshes and bodies) is modelled by a numeric `id`
  field; distinct objects carry distinct ids.
* The external scene graph (three.js) is modelled at its interface boundary:
  the katamari mesh carries its world translation, its quaternion's rotation
  action `rot` together with the inverse action `rotInv` used by the inverted
  world matrix, and its scale; `worldToLocal` applies the inverse of the
  world matrix T·R·S and `localToWorld` applies the matrix itself.
* In-place mutation becomes explicit state passing: each embedded function
  returns the updated records it mutates.
-/

namespace Katamari

open Classical

/-- A 3D vector (CANNON.Vec3 / THREE.Vector3) over exact reals. -/
structure Vec3 where
  x : ℝ
  y : ℝ
  z : ℝ

def Vec3.add (a b : Vec3) : Vec3 := ⟨a.x + b.x, a.y + b.y, a.z + b.z⟩

def Vec3.sub (a b : Vec3) : Vec3 := ⟨a.x - b.x, a.y - b.y, a.z - b.z⟩

def Vec3.smul (c : ℝ) (v : Vec3) : Vec3 := ⟨c * v.x, c * v.y, c * v.z⟩

/-- `CANNON.Vec3.length`: the Euclidean norm. -/
noncomputable def Vec3.length (v : Vec3) : ℝ :=
  Real.sqrt (v.x * v.x + v.y * v.y + v.z * v.z)

/-- `CANNON.Vec3.distanceTo`. -/
noncomputable def Vec3.distanceTo (a b : Vec3) : ℝ :=
  Real.sqrt ((b.x - a.x) * (b.x - a.x) + (b.y - a.y) * (b.y - a.y) +
    (b.z - a.z) * (b.z - a.z))

/-- `CANNON.Vec3.normalize`: rescale to unit length when the norm is
positive, otherwise (the zero vector) set all components to zero. -/
noncomputable def Vec3.normalize (v : Vec3) : Vec3 :=
  if v.length > 0 then Vec3.smul (1 / v.length) v else ⟨0, 0, 0⟩

/-- Componentwise product, modelling the scale part S of a world matrix. -/
def compScale (s v : Vec3) : Vec3 := ⟨s.x * v.x, s.y * v.y, s.z * v.z⟩

/-- Componentwise division, modelling the inverse of the scale part. -/
noncomputable def invScale (s v : Vec3) : Vec3 := ⟨v.x / s.x, v.y / s.y, v.z / s.z⟩

/-- The fields of a `CANNON.Body` the core reads or writes. -/
structure Body where
  id : ℕ
  position : Vec3
  velocity : Vec3
  angularVelocity : Vec3
  force : Vec3
  shapeRadius : ℝ
  boundingRadius : ℝ

/-- The four movement flags (`KeyState` in `gameLogic.ts`). -/
structure KeyState where
  w : Bool
  a : Bool
  s : Bool
  d : Bool

def MOVE_FORCE : ℝ := 15

def MAX_VELOCITY : ℝ := 10

def MAX_ANGULAR_VELOCITY : ℝ := 5

/-- A scene-graph mesh object; `id` models JavaScript object identity. -/
structure MeshObj where
  id : ℕ
  position : Vec3
  scale : Vec3

/-- The `Collectible` record of `gameLogic.ts`; the mesh is referenced by id
into the mesh store. -/
structure Collectible where
  meshId : ℕ
  body : Body
  collected : Bool
  radius : ℝ
  collectedAtSize : Option ℝ

/-- The physics world, reduced to the set of added bodies (by id). -/
structure World where
  bodyIds : List ℕ

/-- `CANNON.World.removeBody`: splices out the first occurrence. -/
def World.removeBody (w : World) (b : Body) : World :=
  ⟨w.bodyIds.erase b.id⟩

/-- The katamari's visual root (`katamariMesh`): world translation, the
rotation action of its quaternion with its inverse, its scale, and the list
of attached child meshes (by id). -/
structure KMesh where
  position : Vec3
  rot : Vec3 → Vec3
  rotInv : Vec3 → Vec3
  scale : Vec3
  childIds : List ℕ

/-- Apply the katamari's world matrix T·R·S to a local position. -/
def KMesh.localToWorld (m : KMesh) (v : Vec3) : Vec3 :=
  (m.rot (compScale m.scale v)).add m.position

/-- `THREE.Object3D.worldToLocal`: apply the inverse S⁻¹·R⁻¹·T⁻¹ of the
katamari's world matrix. -/
noncomputable def KMesh.worldToLocal (m : KMesh) (w : Vec3) : Vec3 :=
  invScale m.scale (m.rotInv (w.sub m.position))

/-- Look up a mesh object by id in the store of scene meshes. -/
def storeLookup (store : List MeshObj) (i : ℕ) : Option MeshObj :=
  store.find? (fun m => m.id == i)

/-- Write the position of the mesh object with the given id. -/
def storeSetPosition (store : List MeshObj) (i : ℕ) (p : Vec3) : List MeshObj :=
  store.map (fun m => if m.id = i then { m with position := p } else m)

/-- Write the scale of the mesh object with the given id. -/
def storeSetScale (store : List MeshObj) (i : ℕ) (s : Vec3) : List MeshObj :=
  store.map (fun m => if m.id = i then { m with scale := s } else m)

/-- `THREE.Object3D.getWorldPosition`: collectible meshes sit at scene level
(identity transform) unless attached to the katamari, in which case the
katamari's world matrix applies. -/
def getWorldPosition (km : KMesh) (store : List MeshObj) (i : ℕ) : Vec3 :=
  match storeLookup store i with
  | some m => if i ∈ km.childIds then km.localToWorld m.position else m.position
  | none => ⟨0, 0, 0⟩

/-- `applyInputForce` from `gameLogic.ts`: builds the force vector from the
key flags and accumulates it on the body (`applyForce` at the body's own
position adds no torque), returning the force. -/
def applyInputForce (keys : KeyState) (katamariBody : Body) (moveForce : ℝ) :
    Vec3 × Body :=
  let f0 : Vec3 := ⟨0, 0, 0⟩
  let f1 := if keys.w then { f0 with z := f0.z - moveForce } else f0
  let f2 := if keys.s then { f1 with z := f1.z + moveForce } else f1
  let f3 := if keys.a then { f2 with x := f2.x - moveForce } else f2
  let force := if keys.d then { f3 with x := f3.x + moveForce } else f3
  (force, { katamariBody with force := katamariBody.force.add force })

/-- `capLinearVelocity` from `gameLogic.ts`: when the speed exceeds the cap,
normalize the velocity and scale it back to the cap, reporting `true`. -/
noncomputable def capLinearVelocity (body : Body) (maxVelocity : ℝ) :
    Body × Bool :=
  if body.velocity.length > maxVelocity then
    ({ body with velocity := Vec3.smul maxVelocity body.velocity.normalize }, true)
  else
    (body, false)

/-- `capAngularVelocity` from `gameLogic.ts`: same shape as
`capLinearVelocity`, on the angular velocity. -/
noncomputable def capAngularVelocity (body : Body) (maxAngularVelocity : ℝ) :
    Body × Bool :=
  if body.angularVelocity.length > maxAngularVelocity then
    ({ body with angularVelocity :=
        Vec3.smul maxAngularVelocity body.angularVelocity.normalize }, true)
  else
    (body, false)

/-- `isColliding` from `gameLogic.ts`: center distance strictly below the sum
of the katamari size and the collectible's radius. -/
def isColliding (katamariBody : Body) (collectible : Collectible)
    (katamariSize : ℝ) : Prop :=
  katamariBody.position.distanceTo collectible.body.position <
    katamariSize + collectible.radius

/-- `findCollidingCollectibles` from `gameLogic.ts`: filter the uncollected
collectibles currently overlapping the katamari. -/
noncomputable def findCollidingCollectibles (katamariBody : Body)
    (collectibles : List Collectible) (katamariSize : ℝ) : List Collectible :=
  collectibles.filter
    (fun item => !item.collected && decide (isColliding katamariBody item katamariSize))

/-- State-passing form of `findCollidingCollectibles`: the source performs no
writes, so the returned body and collectible list are the arguments
themselves. -/
noncomputable def findCollidingCollectiblesS (katamariBody : Body)
    (collectibles : List Collectible) (katamariSize : ℝ) :
    List Collectible × Body × List Collectible :=
  (findCollidingCollectibles katamariBody collectibles katamariSize,
    katamariBody, collectibles)

/-- `stickItem` from `gameLogic.ts`: mark collected, remove the body from the
world, reparent the mesh under the katamari keeping its world position, and
record the collection size. Returns (item, katamariMesh, world, meshes). -/
noncomputable def stickItem (item : Collectible) (katamariMesh : KMesh)
    (world : World) (store : List MeshObj) (katamariSize : ℝ) :
    Collectible × KMesh × World × List MeshObj :=
  let item1 := { item with collected := true }
  let world1 := world.removeBody item.body
  let worldPos := getWorldPosition katamariMesh store item.meshId
  let km1 := { katamariMesh with
    childIds := (katamariMesh.childIds.erase item.meshId) ++ [item.meshId] }
  let store1 := storeSetPosition store item.meshId (katamariMesh.worldToLocal worldPos)
  let item2 := { item1 with collectedAtSize := some katamariSize }
  (item2, km1, world1, store1)

/-- One iteration of the `forEach` in `growKatamari`: look up the collectible
whose mesh is this child and, when the record exists and its
`collectedAtSize` is truthy (present and nonzero), set the child's scale to
the uniform counter-scale `1 / newSize`. -/
noncomputable def growChildUpdate (newSize : ℝ) (collectibles : List Collectible)
    (store : List MeshObj) (childId : ℕ) : List MeshObj :=
  match collectibles.find? (fun col => col.meshId == childId) with
  | some collectibleData =>
    match collectibleData.collectedAtSize with
    | some s =>
      if s ≠ 0 then storeSetScale store childId ⟨1 / newSize, 1 / newSize, 1 / newSize⟩
      else store
    | none => store
  | none => store

/-- `growKatamari` from `gameLogic.ts`: add the increment, set the katamari's
visual scale, counter-scale the attached children, update the sphere shape's
radius and the cached bounding radius, and return the new size. Returns
(newSize, katamariMesh, katamariBody, meshes). -/
noncomputable def growKatamari (amount currentSize : ℝ) (katamariMesh : KMesh)
    (katamariBody : Body) (collectibles : List Collectible)
    (store : List MeshObj) : ℝ × KMesh × Body × List MeshObj :=
  let newSize := currentSize + amount
  let km1 := { katamariMesh with scale := ⟨newSize, newSize, newSize⟩ }
  let store1 := katamariMesh.childIds.foldl (growChildUpdate newSize collectibles) store
  let body1 := { katamariBody with shapeRadius := newSize, boundingRadius := newSize }
  (newSize, km1, body1, store1)

/-- The per-tick game state threaded by `useGameLoop.ts`. -/
structure GameState where
  world : World
  katamariBody : Body
  katamariMesh : KMesh
  store : List MeshObj
  collectibles : List Collectible
  katamariSize : ℝ
  score : ℕ

/-- The body of the `forEach` in `checkCollisions` (`useGameLoop.ts`): stick
the item (whose record in the collectibles array is the same object, so the
array sees the update), grow by 0.05 from the current size, persist the new
size, and bump the score via `onCollect`. -/
noncomputable def processItem (g : GameState) (item : Collectible) : GameState :=
  let st := stickItem item g.katamariMesh g.world g.store g.katamariSize
  let collectibles1 := g.collectibles.map
    (fun c => if c.meshId = item.meshId then st.1 else c)
  let gr := growKatamari 0.05 g.katamariSize st.2.1 g.katamariBody collectibles1 st.2.2.2
  { world := st.2.2.1
    katamariBody := gr.2.2.1
    katamariMesh := gr.2.1
    store := gr.2.2.2
    collectibles := collectibles1
    katamariSize := gr.1
    score := g.score + 1 }

/-- `checkCollisions` from `useGameLoop.ts`: find the colliding items, then
stick-and-grow each in order. -/
noncomputable def checkCollisions (g : GameState) : GameState :=
  (findCollidingCollectibles g.katamariBody g.collectibles g.katamariSize).foldl
    processItem g

/-- Phases 2–3 of `gameLoop` (`useGameLoop.ts`): the external fixed-step
solver advances the bodies (modelled by an arbitrary `physStep` acting on
each body; it touches neither the size ref, the meshes, nor the collected
flags), then input force and the two velocity caps mutate the player body. -/
noncomputable def tickPhysInput (g : GameState) (physStep : Body → Body)
    (keys : KeyState) : GameState :=
  let g1 := { g with
    katamariBody := physStep g.katamariBody
    collectibles := g.collectibles.map
      (fun (c : Collectible) => { c with body := physStep c.body }) }
  let b1 := (applyInputForce keys g1.katamariBody MOVE_FORCE).2
  let b2 := (capLinearVelocity b1 MAX_VELOCITY).1
  let b3 := (capAngularVelocity b2 MAX_ANGULAR_VELOCITY).1
  { g1 with katamariBody := b3 }

/-- One iteration of `gameLoop` (`useGameLoop.ts`): physics step and input
(`tickPhysInput`), then `checkCollisions`, then the visual sync copying the
body position onto the mesh. -/
noncomputable def tick (g : GameState) (physStep : Body → Body) (keys : KeyState) :
    GameState :=
  let g3 := checkCollisions (tickPhysInput g physStep keys)
  { g3 with katamariMesh := { g3.katamariMesh with position := g3.katamariBody.position } }

/-- Concrete body (speed 3) used to witness the velocity-cap theorem. -/
def wBody5 : Body :=
  { id := 0, position := ⟨0, 0, 0⟩, velocity := ⟨3, 0, 0⟩,
    angularVelocity := ⟨3, 0, 0⟩, force := ⟨0, 0, 0⟩,
    shapeRadius := 1, boundingRadius := 1 }

/-- Concrete body (speed 1) for the negative-cap counterexample. -/
def ceBody5 : Body :=
  { id := 0, position := ⟨0, 0, 0⟩, velocity := ⟨1, 0, 0⟩,
    angularVelocity := ⟨0, 0, 0⟩, force := ⟨0, 0, 0⟩,
    shapeRadius := 1, boundingRadius := 1 }

/-- Child mesh (id 7, unit scale) for the C1 counterexample. -/
def ceMesh1 : MeshObj := ⟨7, ⟨0, 0, 0⟩, ⟨1, 1, 1⟩⟩

/-- Body of the C1 counterexample collectible. -/
def ceBody1 : Body :=
  { id := 3, position := ⟨0, 0, 0⟩, velocity := ⟨0, 0, 0⟩,
    angularVelocity := ⟨0, 0, 0⟩, force := ⟨0, 0, 0⟩,
    shapeRadius := 1, boundingRadius := 1 }

/-- Collected item whose recorded `collectedAtSize` is exactly 0. -/
def ceCol1 : Collectible :=
  { meshId := 7, body := ceBody1, collected := true, radius := 1,
    collectedAtSize := some 0 }

/-- Katamari mesh with the single child 7, for the C1 counterexample. -/
def ceKM1 : KMesh :=
  { position := ⟨0, 0, 0⟩, rot := fun v => v, rotInv := fun v => v,
    scale := ⟨1, 1, 1⟩, childIds := [7] }

/-- Child mesh (id 5) for the amended-C1 witness. -/
def wMesh1 : MeshObj := ⟨5, ⟨2, 0, 0⟩, ⟨1, 1, 1⟩⟩

/-- Body of the amended-C1 witness collectible. -/
def wBody1 : Body :=
  { id := 4, position := ⟨2, 0, 0⟩, velocity := ⟨0, 0, 0⟩,
    angularVelocity := ⟨0, 0, 0⟩, force := ⟨0, 0, 0⟩,
    shapeRadius := 1, boundingRadius := 1 }

/-- Collected item with recorded nonzero `collectedAtSize`, for the
amended-C1 witness. -/
def wCol1 : Collectible :=
  { meshId := 5, body := wBody1, collected := true, radius := 1,
    collectedAtSize := some 1 }

/-- Katamari mesh with the single child 5, for the amended-C1 witness. -/
def wKM1 : KMesh :=
  { position := ⟨0, 0, 0⟩, rot := fun v => v, rotInv := fun v => v,
    scale := ⟨1, 1, 1⟩, childIds := [5] }

/-- Child mesh (id 6) for the C10 witness. -/
def wMesh10 : MeshObj := ⟨6, ⟨2, 0, 0⟩, ⟨1, 1, 1⟩⟩

/-- Body of the C10 witness collectible. -/
def wBody10 : Body :=
  { id := 9, position := ⟨2, 0, 0⟩, velocity := ⟨0, 0, 0⟩,
    angularVelocity := ⟨0, 0, 0⟩, force := ⟨0, 0, 0⟩,
    shapeRadius := 1, boundingRadius := 1 }

/-- Collectible whose `collectedAtSize` is recorded as exactly 0, for the
C10 witness. -/
def wCol10 : Collectible :=
  { meshId := 6, body := wBody10, collected := true, radius := 1,
    collectedAtSize := some 0 }

/-- Katamari mesh with the single child 6, for the C10 witness. -/
def wKM10 : KMesh :=
  { position := ⟨0, 0, 0⟩, rot := fun v => v, rotInv := fun v => v,
    scale := ⟨1, 1, 1⟩, childIds := [6] }

/-- Body of the C2 witness collectible. -/
def wIBody2 : Body :=
  { id := 11, position := ⟨2, 1, 0⟩, velocity := ⟨0, 0, 0⟩,
    angularVelocity := ⟨0, 0, 0⟩, force := ⟨0, 0, 0⟩,
    shapeRadius := 0.4, boundingRadius := 0.4 }

/-- Scene-level mesh of the C2 witness collectible. -/
def wMesh2 : MeshObj := ⟨8, ⟨2, 1, 0⟩, ⟨1, 1, 1⟩⟩

/-- Uncollected collectible for the C2 witness. -/
def wItem2 : Collectible :=
  { meshId := 8, body := wIBody2, collected := false, radius := 0.4,
    collectedAtSize := none }

/-- Katamari mesh (identity rotation, unit scale) for the C2 witness. -/
def wKM2 : KMesh :=
  { position := ⟨0, 1, 0⟩, rot := fun v => v, rotInv := fun v => v,
    scale := ⟨1, 1, 1⟩, childIds := [] }

/-- Physics world containing the witness item's body (id 11). -/
def wWorld2 : World := ⟨[10, 11]⟩

/-- Mesh store for the C2 witness. -/
def wStore2 : List MeshObj := [wMesh2]

/-- The katamari body of the end-to-end scenario: radius 1 at the origin. -/
def e2eKBody : Body :=
  { id := 0, position := ⟨0, 0, 0⟩, velocity := ⟨0, 0, 0⟩,
    angularVelocity := ⟨0, 0, 0⟩, force := ⟨0, 0, 0⟩,
    shapeRadius := 1, boundingRadius := 1 }

/-- The collectible body of the end-to-end scenario, at distance 1.2. -/
def e2eIBody : Body :=
  { id := 1, position := ⟨1.2, 0, 0⟩, velocity := ⟨0, 0, 0⟩,
    angularVelocity := ⟨0, 0, 0⟩, force := ⟨0, 0, 0⟩,
    shapeRadius := 0.4, boundingRadius := 0.4 }

/-- The uncollected collectible of the end-to-end scenario (radius 0.4). -/
def e2eCol : Collectible :=
  { meshId := 1, body := e2eIBody, collected := false, radius := 0.4,
    collectedAtSize := none }

/-- The scene-level mesh of the end-to-end collectible. -/
def e2eMesh : MeshObj := ⟨1, ⟨1.2, 0, 0⟩, ⟨1, 1, 1⟩⟩

/-- The katamari mesh of the end-to-end scenario (no children yet). -/
def e2eKM : KMesh :=
  { position := ⟨0, 0, 0⟩, rot := fun v => v, rotInv := fun v => v,
    scale := ⟨1, 1, 1⟩, childIds := [] }

/-- The initial game state of the end-to-end scenario: player radius 1 at
the origin, one uncollected collectible at distance 1.2. -/
def e2eState : GameState :=
  { world := ⟨[0, 1]⟩, katamariBody := e2eKBody, katamariMesh := e2eKM,
    store := [e2eMesh], collectibles := [e2eCol], katamariSize := 1,
    score := 0 }

theorem Vec3.ext {a b : Vec3} (hx : a.x = b.x) (hy : a.y = b.y)
    (hz : a.z = b.z) : a = b := by
  cases a; cases b; simp_all

theorem Vec3.length_nonneg (v : Vec3) : 0 ≤ v.length :=
  Real.sqrt_nonneg _

theorem Vec3.length_smul (c : ℝ) (v : Vec3) :
    (Vec3.smul c v).length = |c| * v.length := by
  simp only [Vec3.smul, Vec3.length]
  rw [show c * v.x * (c * v.x) + c * v.y * (c * v.y) + c * v.z * (c * v.z) =
      c ^ 2 * (v.x * v.x + v.y * v.y + v.z * v.z) by ring,
    Real.sqrt_mul (sq_nonneg c), Real.sqrt_sq_eq_abs]

theorem Vec3.smul_smul (a b : ℝ) (v : Vec3) :
    Vec3.smul a (Vec3.smul b v) = Vec3.smul (a * b) v := by
  apply Vec3.ext <;> simp [Vec3.smul] <;> ring

/-- Claim C6: for every KeyState and force magnitude, the force vector
returned by `applyInputForce` has x-component (d − a) · F, z-component
(s − w) · F (flags read as 0/1), and y-component exactly zero; opposing
flags cancel exactly. -/
theorem applyInputForce_force_components (keys : KeyState) (body : Body) (F : ℝ) :
    (applyInputForce keys body F).1.x =
      ((if keys.d then (1 : ℝ) else 0) - (if keys.a then (1 : ℝ) else 0)) * F ∧
    (applyInputForce keys body F).1.z =
      ((if keys.s then (1 : ℝ) else 0) - (if keys.w then (1 : ℝ) else 0)) * F ∧
    (applyInputForce keys body F).1.y = 0 := by
  rcases keys with ⟨w, a, s, d⟩
  cases w <;> cases a <;> cases s <;> cases d <;>
    refine ⟨?_, ?_, ?_⟩ <;> simp [applyInputForce]

/-- Claim C4: `growKatamari` returns `currentSize + amount`, sets the
katamari mesh's scale to the new size on all three axes and the sphere
shape's radius to the new size; in particular `growKatamari 0.5 1.0 …`
returns 1.5 with visual scale and shape radius 1.5. -/
theorem growKatamari_size_scale_radius (amount currentSize : ℝ) (km : KMesh)
    (body : Body) (cs : List Collectible) (store : List MeshObj) :
    (growKatamari amount currentSize km body cs store).1 = currentSize + amount ∧
    (growKatamari amount currentSize km body cs store).2.1.scale =
      ⟨currentSize + amount, currentSize + amount, currentSize + amount⟩ ∧
    (growKatamari amount currentSize km body cs store).2.2.1.shapeRadius =
      currentSize + amount ∧
    (growKatamari 0.5 1.0 km body cs store).1 = 1.5 ∧
    (growKatamari 0.5 1.0 km body cs store).2.1.scale = ⟨1.5, 1.5, 1.5⟩ ∧
    (growKatamari 0.5 1.0 km body cs store).2.2.1.shapeRadius = 1.5 := by
  refine ⟨rfl, rfl, rfl, ?_, ?_, ?_⟩ <;> simp [growKatamari] <;> norm_num

/-- Claim C3: `findCollidingCollectibles` returns exactly the collectibles
whose `collected` flag is false and whose center distance to the player is
strictly below the player radius plus the item's own radius; hence a tie is
not a collision and a collected item is never returned. -/
theorem findCollidingCollectibles_exact (kb : Body) (cs : List Collectible)
    (size : ℝ) (c : Collectible) :
    c ∈ findCollidingCollectibles kb cs size ↔
      c ∈ cs ∧ c.collected = false ∧
        kb.position.distanceTo c.body.position < size + c.radius := by
  simp [findCollidingCollectibles, List.mem_filter, isColliding,
    Bool.not_eq_true', and_assoc]

/-- Claim C9: the collision query is pure and idempotent: the state-passing
form returns the player body and the collectible list unchanged, and calling
it again on the returned state yields the same result list. -/
theorem findCollidingCollectibles_pure_idempotent (kb : Body)
    (cs : List Collectible) (size : ℝ) :
    (findCollidingCollectiblesS kb cs size).2.1 = kb ∧
    (findCollidingCollectiblesS kb cs size).2.2 = cs ∧
    (findCollidingCollectiblesS (findCollidingCollectiblesS kb cs size).2.1
        (findCollidingCollectiblesS kb cs size).2.2 size).1 =
      (findCollidingCollectiblesS kb cs size).1 :=
  ⟨rfl, rfl, rfl⟩

/-- Claim C5 counterexample: at cap −1 and velocity (1,0,0) the magnitude
exceeds the cap and clamping occurs, yet the post-call magnitude is not the
cap (a vector's length is never negative), refuting the claim for arbitrary
caps. -/
theorem capLinearVelocity_negcap_counterexample :
    ceBody5.velocity.length > (-1 : ℝ) ∧
    (capLinearVelocity ceBody5 (-1)).2 = true ∧
    (capLinearVelocity ceBody5 (-1)).1.velocity.length ≠ -1 := by
  have hgt : ceBody5.velocity.length > (-1 : ℝ) :=
    lt_of_lt_of_le (by norm_num) (Vec3.length_nonneg _)
  refine ⟨hgt, ?_, ?_⟩
  · unfold capLinearVelocity
    rw [if_pos hgt]
  · have hnn := Vec3.length_nonneg (capLinearVelocity ceBody5 (-1)).1.velocity
    intro hEq
    rw [hEq] at hnn
    norm_num at hnn

/-- Claim C5 (amended: nonnegative cap): for every body and cap ≥ 0, if the
(linear or angular) velocity's magnitude strictly exceeds the cap it is
rescaled to the nonnegative multiple (cap/‖v‖)·v — same direction, magnitude
exactly the cap — and the call reports true; if the magnitude is at most the
cap the body is unchanged and the call reports false. -/
theorem capVelocity_clamp_spec (body : Body) (cap : ℝ) (hcap : 0 ≤ cap) :
    (body.velocity.length > cap →
      (capLinearVelocity body cap).1.velocity =
        Vec3.smul (cap / body.velocity.length) body.velocity ∧
      (capLinearVelocity body cap).1.velocity.length = cap ∧
      (capLinearVelocity body cap).2 = true) ∧
    (body.velocity.length ≤ cap →
      (capLinearVelocity body cap).1 = body ∧
      (capLinearVelocity body cap).2 = false) ∧
    (body.angularVelocity.length > cap →
      (capAngularVelocity body cap).1.angularVelocity =
        Vec3.smul (cap / body.angularVelocity.length) body.angularVelocity ∧
      (capAngularVelocity body cap).1.angularVelocity.length = cap ∧
      (capAngularVelocity body cap).2 = true) ∧
    (body.angularVelocity.length ≤ cap →
      (capAngularVelocity body cap).1 = body ∧
      (capAngularVelocity body cap).2 = false) := by
  have key : ∀ v : Vec3, v.length > cap →
      Vec3.smul cap v.normalize = Vec3.smul (cap / v.length) v ∧
      (Vec3.smul cap v.normalize).length = cap := by
    intro v hv
    have hl : 0 < v.length := lt_of_le_of_lt hcap hv
    have hne : v.length ≠ 0 := ne_of_gt hl
    have hnorm : v.normalize = Vec3.smul (1 / v.length) v := by
      unfold Vec3.normalize
      rw [if_pos hl]
    have heq : Vec3.smul cap v.normalize = Vec3.smul (cap / v.length) v := by
      rw [hnorm, Vec3.smul_smul, mul_one_div]
    refine ⟨heq, ?_⟩
    rw [heq, Vec3.length_smul, abs_of_nonneg (div_nonneg hcap (le_of_lt hl)),
      div_mul_cancel₀ _ hne]
  refine ⟨?_, ?_, ?_, ?_⟩
  · intro h
    have hb : (capLinearVelocity body cap).1.velocity =
        Vec3.smul cap body.velocity.normalize ∧
        (capLinearVelocity body cap).2 = true := by
      unfold capLinearVelocity
      rw [if_pos h]
      exact ⟨rfl, rfl⟩
    exact ⟨hb.1.trans (key _ h).1, by rw [hb.1]; exact (key _ h).2, hb.2⟩
  · intro h
    unfold capLinearVelocity
    rw [if_neg (not_lt.mpr h)]
    exact ⟨rfl, rfl⟩
  · intro h
    have hb : (capAngularVelocity body cap).1.angularVelocity =
        Vec3.smul cap body.angularVelocity.normalize ∧
        (capAngularVelocity body cap).2 = true := by
      unfold capAngularVelocity
      rw [if_pos h]
      exact ⟨rfl, rfl⟩
    exact ⟨hb.1.trans (key _ h).1, by rw [hb.1]; exact (key _ h).2, hb.2⟩
  · intro h
    unfold capAngularVelocity
    rw [if_neg (not_lt.mpr h)]
    exact ⟨rfl, rfl⟩

/-- Witness for the amended velocity-cap theorem at cap 1 and speed 3: the
cap applies, the clamped vector is the stated nonnegative rescaling of the
original, and its magnitude is exactly the cap. -/
theorem capVelocity_clamp_spec_witness :
    (0 : ℝ) ≤ 1 ∧ wBody5.velocity.length > 1 ∧
    (capLinearVelocity wBody5 1).1.velocity =
      Vec3.smul (1 / wBody5.velocity.length) wBody5.velocity ∧
    (capLinearVelocity wBody5 1).1.velocity.length = 1 ∧
    (capLinearVelocity wBody5 1).2 = true := by
  have h3 : wBody5.velocity.length = 3 := by
    show Real.sqrt ((3 : ℝ) * 3 + 0 * 0 + 0 * 0) = 3
    rw [show (3 : ℝ) * 3 + 0 * 0 + 0 * 0 = 3 ^ 2 by norm_num]
    exact Real.sqrt_sq (by norm_num)
  have hgt : wBody5.velocity.length > 1 := by rw [h3]; norm_num
  have main := (capVelocity_clamp_spec wBody5 1 (by norm_num)).1 hgt
  exact ⟨by norm_num, hgt, main.1, main.2.1, main.2.2⟩

theorem storeLookup_map_presId (store : List MeshObj) (i : ℕ)
    (f : MeshObj → MeshObj) (hf : ∀ m, (f m).id = m.id) :
    storeLookup (store.map f) i = (storeLookup store i).map f := by
  unfold storeLookup
  rw [List.find?_map]
  have hpred : ((fun m => m.id == i) ∘ f) = (fun m : MeshObj => m.id == i) := by
    funext m
    simp [Function.comp, hf]
  rw [hpred]

theorem storeSetScale_lookup (store : List MeshObj) (i j : ℕ) (s : Vec3) :
    storeLookup (storeSetScale store j s) i =
      (storeLookup store i).map
        (fun m => if m.id = j then { m with scale := s } else m) := by
  unfold storeSetScale
  exact storeLookup_map_presId _ _ _ (fun m => by split <;> rfl)

theorem storeSetPosition_lookup (store : List MeshObj) (i j : ℕ) (p : Vec3) :
    storeLookup (storeSetPosition store j p) i =
      (storeLookup store i).map
        (fun m => if m.id = j then { m with position := p } else m) := by
  unfold storeSetPosition
  exact storeLookup_map_presId _ _ _ (fun m => by split <;> rfl)

theorem storeLookup_id (store : List MeshObj) (i : ℕ) (m : MeshObj)
    (h : storeLookup store i = some m) : m.id = i := by
  unfold storeLookup at h
  have := List.find?_some h
  simpa using this

theorem growChildUpdate_lookup_ne (n : ℝ) (cs : List Collectible)
    (store : List MeshObj) (i j : ℕ) (hne : j ≠ i) :
    storeLookup (growChildUpdate n cs store j) i = storeLookup store i := by
  unfold growChildUpdate
  cases hfind : cs.find? (fun col => col.meshId == j) with
  | none => rfl
  | some col =>
    dsimp only
    cases hcas : col.collectedAtSize with
    | none => rfl
    | some s =>
      dsimp only
      by_cases hs : s ≠ 0
      · rw [if_pos hs, storeSetScale_lookup]
        cases hm : storeLookup store i with
        | none => rfl
        | some m =>
          have hid : m.id = i := storeLookup_id _ _ _ hm
          simp [hid, Ne.symm hne]
      · rw [if_neg hs]

theorem growChildUpdate_self_truthy (n : ℝ) (cs : List Collectible)
    (store : List MeshObj) (i : ℕ) (col : Collectible) (s : ℝ) (m : MeshObj)
    (hfind : cs.find? (fun col => col.meshId == i) = some col)
    (hcas : col.collectedAtSize = some s) (hs : s ≠ 0)
    (hm : storeLookup store i = some m) :
    storeLookup (growChildUpdate n cs store i) i =
      some { m with scale := ⟨1 / n, 1 / n, 1 / n⟩ } := by
  unfold growChildUpdate
  rw [hfind]
  dsimp only
  rw [hcas]
  dsimp only
  rw [if_pos hs, storeSetScale_lookup, hm]
  have hid : m.id = i := storeLookup_id _ _ _ hm
  simp [hid]

theorem growChildUpdate_self_noop (n : ℝ) (cs : List Collectible)
    (store : List MeshObj) (i : ℕ)
    (h : cs.find? (fun col => col.meshId == i) = none ∨
      ∃ col, cs.find? (fun col => col.meshId == i) = some col ∧
        (col.collectedAtSize = none ∨ col.collectedAtSize = some 0)) :
    growChildUpdate n cs store i = store := by
  unfold growChildUpdate
  rcases h with h | ⟨col, hfind, hcas⟩
  · rw [h]
  · rw [hfind]
    dsimp only
    rcases hcas with h0 | h0
    · rw [h0]
    · rw [h0]
      dsimp only
      rw [if_neg (fun hcon => hcon rfl)]

theorem growChildUpdate_lookup_self (n : ℝ) (cs : List Collectible)
    (store : List MeshObj) (i : ℕ) :
    growChildUpdate n cs store i = store ∨
    storeLookup (growChildUpdate n cs store i) i =
      (storeLookup store i).map
        (fun m => { m with scale := ⟨1 / n, 1 / n, 1 / n⟩ }) := by
  unfold growChildUpdate
  cases hfind : cs.find? (fun col => col.meshId == i) with
  | none => exact Or.inl rfl
  | some col =>
    dsimp only
    cases hcas : col.collectedAtSize with
    | none => exact Or.inl rfl
    | some s =>
      dsimp only
      by_cases hs : s ≠ 0
      · right
        rw [if_pos hs, storeSetScale_lookup]
        cases hm : storeLookup store i with
        | none => rfl
        | some m =>
          have hid : m.id = i := storeLookup_id _ _ _ hm
          simp [hid]
      · exact Or.inl (by rw [if_neg hs])

theorem foldl_gcu_preserves_scaled (n : ℝ) (cs : List Collectible)
    (ids : List ℕ) (i : ℕ) :
    ∀ store m, storeLookup store i = some m →
      m.scale = ⟨1 / n, 1 / n, 1 / n⟩ →
      ∃ m', storeLookup (ids.foldl (growChildUpdate n cs) store) i = some m' ∧
        m'.scale = ⟨1 / n, 1 / n, 1 / n⟩ := by
  induction ids with
  | nil => exact fun store m hm hsc => ⟨m, hm, hsc⟩
  | cons j rest ih =>
    intro store m hm hsc
    rw [List.foldl_cons]
    by_cases hij : j = i
    · subst hij
      rcases growChildUpdate_lookup_self n cs store j with heq | hlk
      · rw [heq]; exact ih store m hm hsc
      · rw [hm] at hlk
        exact ih _ _ hlk rfl
    · exact ih _ m (by rw [growChildUpdate_lookup_ne n cs store i j hij]; exact hm) hsc

theorem foldl_gcu_sets (n : ℝ) (cs : List Collectible) (ids : List ℕ)
    (i : ℕ) (col : Collectible) (s : ℝ)
    (hfind : cs.find? (fun col => col.meshId == i) = some col)
    (hcas : col.collectedAtSize = some s) (hs : s ≠ 0) :
    ∀ store, i ∈ ids → (∃ m, storeLookup store i = some m) →
      ∃ m', storeLookup (ids.foldl (growChildUpdate n cs) store) i = some m' ∧
        m'.scale = ⟨1 / n, 1 / n, 1 / n⟩ := by
  induction ids with
  | nil => intro store h; exact absurd h (List.not_mem_nil _)
  | cons j rest ih =>
    rintro store hmem ⟨m, hm⟩
    rw [List.foldl_cons]
    by_cases hij : j = i
    · subst hij
      have h1 := growChildUpdate_self_truthy n cs store j col s m hfind hcas hs hm
      exact foldl_gcu_preserves_scaled n cs rest j _ _ h1 rfl
    · have hmem' : i ∈ rest := by
        rcases List.mem_cons.mp hmem with h | h
        · exact absurd h.symm hij
        · exact h
      exact ih _ hmem'
        ⟨m, by rw [growChildUpdate_lookup_ne n cs store i j hij]; exact hm⟩

theorem foldl_gcu_noop (n : ℝ) (cs : List Collectible) (ids : List ℕ) (i : ℕ)
    (h : cs.find? (fun col => col.meshId == i) = none ∨
      ∃ col, cs.find? (fun col => col.meshId == i) = some col ∧
        (col.collectedAtSize = none ∨ col.collectedAtSize = some 0)) :
    ∀ store, storeLookup (ids.foldl (growChildUpdate n cs) store) i =
      storeLookup store i := by
  induction ids with
  | nil => exact fun store => rfl
  | cons j rest ih =>
    intro store
    rw [List.foldl_cons]
    by_cases hij : j = i
    · subst hij
      rw [growChildUpdate_self_noop n cs store j h, ih]
    · rw [ih, growChildUpdate_lookup_ne n cs store i j hij]

/-- Claim C1, amended: a child of the katamari mesh whose collectible lookup
yields a record with a recorded *nonzero* `collectedAtSize` has its scale set
to `1/(currentSize+amount)` on all axes — independently of the particular
nonzero value — while a child whose lookup yields no record, or a record
with no `collectedAtSize`, keeps its prior mesh entry (the original claim
fails when the recorded value is exactly 0, see the counterexample). -/
theorem growKatamari_counterScale_amended (amount currentSize : ℝ)
    (km : KMesh) (body : Body) (cs : List Collectible) (store : List MeshObj)
    (childId : ℕ) (hmem : childId ∈ km.childIds) :
    (∀ col s m, cs.find? (fun c => c.meshId == childId) = some col →
      col.collectedAtSize = some s → s ≠ 0 →
      storeLookup store childId = some m →
      ∃ m', storeLookup
          (growKatamari amount currentSize km body cs store).2.2.2 childId =
          some m' ∧
        m'.scale = ⟨1 / (currentSize + amount), 1 / (currentSize + amount),
          1 / (currentSize + amount)⟩) ∧
    ((cs.find? (fun c => c.meshId == childId) = none ∨
      (∃ col, cs.find? (fun c => c.meshId == childId) = some col ∧
        col.collectedAtSize = none)) →
      storeLookup (growKatamari amount currentSize km body cs store).2.2.2
          childId =
        storeLookup store childId) := by
  constructor
  · intro col s m hfind hcas hs hm
    exact foldl_gcu_sets (currentSize + amount) cs km.childIds childId col s
      hfind hcas hs store hmem ⟨m, hm⟩
  · intro h
    refine foldl_gcu_noop (currentSize + amount) cs km.childIds childId ?_ store
    rcases h with h | ⟨col, hfind, hcas⟩
    · exact Or.inl h
    · exact Or.inr ⟨col, hfind, Or.inl hcas⟩

/-- Witness for the amended C1 theorem: a single child (id 5) collected at
size 1; growing from 1 by 1 drives its scale to 1/(1+1) on all axes. -/
theorem growKatamari_counterScale_amended_witness :
    (5 : ℕ) ∈ wKM1.childIds ∧
    List.find? (fun c => c.meshId == 5) [wCol1] = some wCol1 ∧
    wCol1.collectedAtSize = some 1 ∧ (1 : ℝ) ≠ 0 ∧
    storeLookup [wMesh1] 5 = some wMesh1 ∧
    ∃ m', storeLookup (growKatamari 1 1 wKM1 wBody1 [wCol1] [wMesh1]).2.2.2 5 =
        some m' ∧
      m'.scale = ⟨1 / (1 + 1), 1 / (1 + 1), 1 / (1 + 1)⟩ := by
  refine ⟨by simp [wKM1], rfl, rfl, by norm_num, rfl, ?_⟩
  exact (growKatamari_counterScale_amended 1 1 wKM1 wBody1 [wCol1] [wMesh1] 5
    (by simp [wKM1])).1 wCol1 1 wMesh1 rfl rfl (by norm_num) rfl

/-- Claim C1 counterexample: child 7 corresponds (by the source's own
lookup) to a collected item whose recorded `collectedAtSize` is 0; the claim
demands its scale become 1/(1+1) after `growKatamari 1 1 …`, but the mesh
entry is returned unchanged with scale (1,1,1) — the truthiness guard skips
a recorded value of 0. -/
theorem growKatamari_counterScale_counterexample :
    ceCol1.collectedAtSize = some 0 ∧ ceCol1.collected = true ∧
    (7 : ℕ) ∈ ceKM1.childIds ∧
    List.find? (fun c => c.meshId == 7) [ceCol1] = some ceCol1 ∧
    storeLookup (growKatamari 1 1 ceKM1 ceBody1 [ceCol1] [ceMesh1]).2.2.2 7 =
      some ceMesh1 ∧
    ceMesh1.scale ≠ ⟨1 / (1 + 1), 1 / (1 + 1), 1 / (1 + 1)⟩ := by
  refine ⟨rfl, rfl, by simp [ceKM1], rfl, ?_, ?_⟩
  · have h := foldl_gcu_noop ((1 : ℝ) + 1) [ceCol1] [7] 7
      (Or.inr ⟨ceCol1, rfl, Or.inr rfl⟩) [ceMesh1]
    exact h.trans rfl
  · simp only [ceMesh1, ne_eq, Vec3.mk.injEq, not_and]
    intro hx
    norm_num at hx

/-- Claim C10: in `growKatamari`, a child whose collectible record carries
`collectedAtSize = 0` is treated like one with no recorded value — the
truthiness test skips it, so its mesh entry (hence its scale) is left at the
prior value. -/
theorem growKatamari_zero_treated_as_absent (amount currentSize : ℝ)
    (km : KMesh) (body : Body) (cs : List Collectible) (store : List MeshObj)
    (childId : ℕ) (col : Collectible)
    (hfind : cs.find? (fun c => c.meshId == childId) = some col)
    (h0 : col.collectedAtSize = some 0) :
    storeLookup (growKatamari amount currentSize km body cs store).2.2.2
        childId =
      storeLookup store childId :=
  foldl_gcu_noop (currentSize + amount) cs km.childIds childId
    (Or.inr ⟨col, hfind, Or.inr h0⟩) store

/-- Witness for C10: child 6 with `collectedAtSize` recorded as 0; its store
entry is unchanged by `growKatamari 1 1 …`. -/
theorem growKatamari_zero_treated_as_absent_witness :
    List.find? (fun c => c.meshId == 6) [wCol10] = some wCol10 ∧
    wCol10.collectedAtSize = some 0 ∧
    storeLookup (growKatamari 1 1 wKM10 wBody10 [wCol10] [wMesh10]).2.2.2 6 =
      storeLookup [wMesh10] 6 :=
  ⟨rfl, rfl, growKatamari_zero_treated_as_absent 1 1 wKM10 wBody10 [wCol10]
    [wMesh10] 6 wCol10 rfl rfl⟩

theorem localToWorld_worldToLocal (km : KMesh)
    (hrot : ∀ v, km.rot (km.rotInv v) = v)
    (hsx : km.scale.x ≠ 0) (hsy : km.scale.y ≠ 0) (hsz : km.scale.z ≠ 0)
    (w : Vec3) : km.localToWorld (km.worldToLocal w) = w := by
  unfold KMesh.localToWorld KMesh.worldToLocal
  have hcomp : ∀ u : Vec3, compScale km.scale (invScale km.scale u) = u := by
    intro u
    apply Vec3.ext <;> simp [compScale, invScale] <;>
      rw [mul_comm, div_mul_cancel₀]
    · exact hsx
    · exact hsy
    · exact hsz
  rw [hcomp, hrot]
  apply Vec3.ext <;> simp [Vec3.add, Vec3.sub]

/-- Claim C2: for an uncollected collectible, `stickItem` marks it
collected, removes its body from the world's body set, attaches its mesh as
a child of the katamari mesh with the world-space position preserved exactly
(hence within any positive epsilon), and records `collectedAtSize` equal to
the size argument. Hypotheses: the mesh is in the store and not yet a child,
the external rotation satisfies `rot ∘ rotInv = id`, the katamari's scale
components are nonzero (an invertible world matrix), and the body is added
at most once. -/
theorem stickItem_spec (item : Collectible) (km : KMesh) (world : World)
    (store : List MeshObj) (size : ℝ) (m : MeshObj)
    (hcol : item.collected = false)
    (hnotchild : item.meshId ∉ km.childIds)
    (hstore : storeLookup store item.meshId = some m)
    (hrot : ∀ v, km.rot (km.rotInv v) = v)
    (hsx : km.scale.x ≠ 0) (hsy : km.scale.y ≠ 0) (hsz : km.scale.z ≠ 0)
    (hcount : world.bodyIds.count item.body.id ≤ 1) :
    (stickItem item km world store size).1.collected = true ∧
    item.body.id ∉ (stickItem item km world store size).2.2.1.bodyIds ∧
    item.meshId ∈ (stickItem item km world store size).2.1.childIds ∧
    getWorldPosition (stickItem item km world store size).2.1
        (stickItem item km world store size).2.2.2 item.meshId =
      getWorldPosition km store item.meshId ∧
    (stickItem item km world store size).1.collectedAtSize = some size := by
  have hid : m.id = item.meshId := storeLookup_id _ _ _ hstore
  have hpre : getWorldPosition km store item.meshId = m.position := by
    unfold getWorldPosition
    rw [hstore]
    dsimp only
    rw [if_neg hnotchild]
  refine ⟨rfl, ?_, ?_, ?_, rfl⟩
  · show item.body.id ∉ world.bodyIds.erase item.body.id
    intro hmem
    have hcnt := List.count_erase_self item.body.id world.bodyIds
    have hpos := List.count_pos_iff.mpr hmem
    omega
  · show item.meshId ∈ (km.childIds.erase item.meshId) ++ [item.meshId]
    simp
  · show getWorldPosition
        { km with childIds := (km.childIds.erase item.meshId) ++ [item.meshId] }
        (storeSetPosition store item.meshId
          (km.worldToLocal (getWorldPosition km store item.meshId)))
        item.meshId = getWorldPosition km store item.meshId
    rw [hpre]
    have hpost : storeLookup
        (storeSetPosition store item.meshId (km.worldToLocal m.position))
        item.meshId =
        some { m with position := km.worldToLocal m.position } := by
      rw [storeSetPosition_lookup, hstore]
      simp [hid]
    unfold getWorldPosition
    rw [hpost]
    dsimp only
    rw [if_pos (by simp)]
    show km.localToWorld (km.worldToLocal m.position) = m.position
    exact localToWorld_worldToLocal km hrot hsx hsy hsz _

/-- Witness for the C2 theorem: a fresh collectible (mesh 8, body 11) with
the katamari at (0,1,0), identity rotation and unit scale; sticking at size
1 satisfies every hypothesis and conclusion. -/
theorem stickItem_spec_witness :
    wItem2.collected = false ∧
    wItem2.meshId ∉ wKM2.childIds ∧
    storeLookup wStore2 wItem2.meshId = some wMesh2 ∧
    wWorld2.bodyIds.count wItem2.body.id ≤ 1 ∧
    ((stickItem wItem2 wKM2 wWorld2 wStore2 1).1.collected = true ∧
      wItem2.body.id ∉ (stickItem wItem2 wKM2 wWorld2 wStore2 1).2.2.1.bodyIds ∧
      wItem2.meshId ∈ (stickItem wItem2 wKM2 wWorld2 wStore2 1).2.1.childIds ∧
      getWorldPosition (stickItem wItem2 wKM2 wWorld2 wStore2 1).2.1
          (stickItem wItem2 wKM2 wWorld2 wStore2 1).2.2.2 wItem2.meshId =
        getWorldPosition wKM2 wStore2 wItem2.meshId ∧
      (stickItem wItem2 wKM2 wWorld2 wStore2 1).1.collectedAtSize = some 1) := by
  refine ⟨rfl, by simp [wKM2, wItem2], rfl, by decide, ?_⟩
  exact stickItem_spec wItem2 wKM2 wWorld2 wStore2 1 wMesh2 rfl
    (by simp [wKM2, wItem2]) rfl (fun v => rfl)
    (by norm_num [wKM2]) (by norm_num [wKM2]) (by norm_num [wKM2]) (by decide)

theorem processItem_size (g : GameState) (item : Collectible) :
    (processItem g item).katamariSize = g.katamariSize + 0.05 := rfl

theorem foldl_processItem_mono (items : List Collectible) :
    ∀ g : GameState, g.katamariSize ≤ (items.foldl processItem g).katamariSize := by
  induction items with
  | nil => exact fun g => le_refl _
  | cons item rest ih =>
    intro g
    rw [List.foldl_cons]
    refine le_trans ?_ (ih (processItem g item))
    rw [processItem_size]
    have h5 : (0 : ℝ) ≤ 0.05 := by norm_num
    linarith

theorem checkCollisions_size_mono (g : GameState) :
    g.katamariSize ≤ (checkCollisions g).katamariSize := by
  unfold checkCollisions
  exact foldl_processItem_mono _ _

/-- Claim C8: across one tick of the game loop (external physics step, input
force, velocity caps, collision check with stick-and-grow at increment 0.05
per collected item, visual sync) the katamari size never decreases — so the
radius is monotonically non-decreasing over the whole session. -/
theorem tick_size_monotone (g : GameState) (physStep : Body → Body)
    (keys : KeyState) :
    g.katamariSize ≤ (tick g physStep keys).katamariSize :=
  calc g.katamariSize
      = (tickPhysInput g physStep keys).katamariSize := rfl
    _ ≤ (checkCollisions (tickPhysInput g physStep keys)).katamariSize :=
        checkCollisions_size_mono _
    _ = (tick g physStep keys).katamariSize := rfl

/-- Claim C7: in the end-to-end scenario (player radius 1 at the origin, an
uncollected collectible of radius 0.4 at distance 1.2) the pair is flagged
colliding (1.2 < 1.4); after one collision-attach-grow cycle of
`checkCollisions` with increment 0.05 the player radius is exactly 1.05 and
the collectible's visual scale is 1/1.05 on all axes. -/
theorem endToEnd_collect_and_grow :
    isColliding e2eKBody e2eCol 1 ∧
    findCollidingCollectibles e2eKBody [e2eCol] 1 = [e2eCol] ∧
    (checkCollisions e2eState).katamariSize = 1.05 ∧
    (∃ m, storeLookup (checkCollisions e2eState).store 1 = some m ∧
      m.scale = ⟨1 / 1.05, 1 / 1.05, 1 / 1.05⟩) := by
  have hdist : e2eKBody.position.distanceTo e2eCol.body.position = 1.2 := by
    show Real.sqrt (((1.2 : ℝ) - 0) * ((1.2 : ℝ) - 0) +
      ((0 : ℝ) - 0) * ((0 : ℝ) - 0) + ((0 : ℝ) - 0) * ((0 : ℝ) - 0)) = 1.2
    rw [show ((1.2 : ℝ) - 0) * ((1.2 : ℝ) - 0) + ((0 : ℝ) - 0) * ((0 : ℝ) - 0) +
      ((0 : ℝ) - 0) * ((0 : ℝ) - 0) = 1.2 ^ 2 by norm_num]
    exact Real.sqrt_sq (by norm_num)
  have hcoll : isColliding e2eKBody e2eCol 1 := by
    unfold isColliding
    rw [hdist]
    show (1.2 : ℝ) < 1 + e2eCol.radius
    norm_num [e2eCol]
  have hfind : findCollidingCollectibles e2eKBody [e2eCol] 1 = [e2eCol] := by
    unfold findCollidingCollectibles
    rw [List.filter_cons, List.filter_nil, if_pos]
    rw [decide_eq_true hcoll]
    rfl
  have hcc : checkCollisions e2eState = processItem e2eState e2eCol := by
    unfold checkCollisions
    show (findCollidingCollectibles e2eKBody [e2eCol] 1).foldl processItem e2eState = _
    rw [hfind, List.foldl_cons, List.foldl_nil]
  have hsize : (checkCollisions e2eState).katamariSize = 1.05 := by
    rw [hcc, processItem_size]
    show (1 : ℝ) + 0.05 = 1.05
    norm_num
  refine ⟨hcoll, hfind, hsize, ?_⟩
  rw [hcc]
  have hup := foldl_gcu_sets ((1 : ℝ) + 0.05)
    [{ e2eCol with collected := true, collectedAtSize := some (1 : ℝ) }]
    [1] 1 { e2eCol with collected := true, collectedAtSize := some (1 : ℝ) }
    1 rfl rfl (by norm_num)
    (storeSetPosition [e2eMesh] 1
      (e2eKM.worldToLocal (getWorldPosition e2eKM [e2eMesh] 1)))
    (by simp)
    ⟨{ e2eMesh with position :=
        e2eKM.worldToLocal (getWorldPosition e2eKM [e2eMesh] 1) }, rfl⟩
  obtain ⟨m, hm, hsc⟩ := hup
  refine ⟨m, ?_, ?_⟩
  · exact hm
  · rw [hsc]
    norm_num

end Katamari
